import Mathlib

/-!
Shallow embedding of `src/main.py`, a daily stock-price ETL pipeline:
pydantic shape validation of the provider payload, dated raw snapshot files,
a pandas transform (parse, concatenate, deduplicate, sort), and an sqlite
load with an ON CONFLICT upsert.

Modelling conventions:
* Python floats are modelled as `ℚ`; the one place where IEEE semantics
  matters (division by a zero open price, which yields `inf`/`NaN` rather
  than raising) is modelled by an `Option ℚ` that is `none` exactly when the
  float result is non-finite.
* `pd.to_datetime` is an external collaborator and is passed in as a
  function `toDT : String → Option ℕ` mapping a date string to a timestamp
  ordinal (`none` models its parse failure, which raises a `ValueError`
  subclass).  Likewise `float()`/`int()` readings of the string fields are
  carried on the field values themselves.
* Python exceptions are modelled with `Except PyErr`.
* Python `sorted` and `pandas.sort_values` are modelled by a stable
  ascending insertion sort over a boolean comparison.
-/

/-- JValue is a value found under one of the five bar keys of a raw JSON bar
object.  `absent` models a missing key (pydantic raises ValidationError for
it); `str` models a JSON string carrying the numeric readings that the
Python calls `float()` and `int()` would produce on it (`none` when the
respective call raises ValueError). -/
inductive JValue where
  | absent : JValue
  | str : Option ℚ → Option ℤ → JValue
deriving DecidableEq

/-- JValue.isStr is true when the field is present as a string, which is all
that pydantic shape validation checks. -/
def JValue.isStr : JValue → Bool
  | .absent => false
  | .str _ _ => true

/-- JValue.asFloat is the result of Python `float(value)`: `none` models the
raised ValueError. -/
def JValue.asFloat : JValue → Option ℚ
  | .absent => none
  | .str f _ => f

/-- JValue.asInt is the result of Python `int(value)`: `none` models the
raised ValueError. -/
def JValue.asInt : JValue → Option ℤ
  | .absent => none
  | .str _ i => i

/-- _DailyBar is the pydantic model of one raw bar: the five alias fields
"1. open" .. "5. volume" (the Lean field name `open_` stands for the Python
field `open`, which is a Lean keyword). -/
structure _DailyBar where
  open_ : JValue
  high : JValue
  low : JValue
  close : JValue
  volume : JValue
deriving DecidableEq

/-- _Payload is the pydantic model of the whole payload: `ts` is the value
under the alias "Time Series (Daily)"; `none` models that key being absent
from the JSON object.  Entries keep JSON object order (Python dicts preserve
insertion order). -/
structure _Payload where
  ts : Option (List (String × _DailyBar))
deriving DecidableEq

/-- PyErr models the Python exceptions the pipeline can raise. -/
inductive PyErr where
  | valueError : String → PyErr
  | keyError : String → PyErr
  | fileNotFoundError : String → PyErr
  | requestsError : String → PyErr
deriving DecidableEq

/-- barOk is the pydantic shape check of one bar: all five alias keys must be
present with string values; no numeric interpretation happens here. -/
def barOk (b : _DailyBar) : Bool :=
  b.open_.isStr && b.high.isStr && b.low.isStr && b.close.isStr && b.volume.isStr

/-- _validate_payload: pydantic validation of the payload shape.  A missing
"Time Series (Daily)" key, or a bar missing one of its five string fields,
is a ValidationError, re-raised as `ValueError(f"{symbol}: invalid API
payload: {e}")`; the error message starts with the offending symbol. -/
def _validate_payload (payload : _Payload) (symbol : String) :
    Except PyErr (List (String × _DailyBar)) :=
  match payload.ts with
  | none => .error (.valueError (symbol ++ ": invalid API payload"))
  | some entries =>
    if entries.all (fun e => barOk e.2) then .ok entries
    else .error (.valueError (symbol ++ ": invalid API payload"))

/-- Row0 is one row of the parse_json DataFrame before the derived column is
added: `date` is the timestamp ordinal produced by `pd.to_datetime`. -/
structure Row0 where
  symbol : String
  date : ℕ
  open_ : ℚ
  high : ℚ
  low : ℚ
  close : ℚ
  volume : ℤ
deriving DecidableEq

/-- Row is one row of the normalized DataFrame, with the derived column.
`daily_change_percentage` is `none` exactly when the float computation
`(close - open) / open * 100` is non-finite (`inf` or `NaN`), which happens
iff `open = 0`; pandas raises nothing in that case. -/
structure Row where
  symbol : String
  date : ℕ
  open_ : ℚ
  high : ℚ
  low : ℚ
  close : ℚ
  volume : ℤ
  daily_change_percentage : Option ℚ
deriving DecidableEq

/-- insertLe inserts into a sorted list, placing the new element before every
later element it ties with. -/
def insertLe (le : α → α → Bool) (a : α) : List α → List α
  | [] => [a]
  | b :: bs => if le a b then a :: b :: bs else b :: insertLe le a bs

/-- sortBy is a stable ascending sort (ties keep their original relative
order); it models Python `sorted` and `pandas.sort_values`. -/
def sortBy (le : α → α → Bool) : List α → List α
  | [] => []
  | a :: l => insertLe le a (sortBy le l)

/-- parseEntry converts one time-series entry into a row, the way the dict
literal inside parse_json does: `pd.to_datetime(d)`, then `float()` on the
four price fields and `int()` on volume; any failure raises ValueError (for
dates, a ValueError subclass). -/
def parseEntry (toDT : String → Option ℕ) (symbol : String)
    (e : String × _DailyBar) : Except PyErr Row0 :=
  match toDT e.1 with
  | none => .error (.valueError ("could not parse date " ++ e.1))
  | some dt =>
    match e.2.open_.asFloat, e.2.high.asFloat, e.2.low.asFloat,
          e.2.close.asFloat, e.2.volume.asInt with
    | some o, some h, some l, some c, some v =>
      .ok { symbol := symbol, date := dt, open_ := o, high := h, low := l,
            close := c, volume := v }
    | _, _, _, _, _ => .error (.valueError "could not convert string")

/-- dateLe is the comparison pandas uses for `sort_values("date")`. -/
def dateLe (r1 r2 : Row0) : Bool := decide (r1.date ≤ r2.date)

/-- addDerived adds the derived column `(close - open) / open * 100`.  With a
zero open the IEEE float division yields `inf` or `NaN` (modelled `none`);
no exception is raised. -/
def addDerived (r : Row0) : Row :=
  { symbol := r.symbol, date := r.date, open_ := r.open_, high := r.high,
    low := r.low, close := r.close, volume := r.volume,
    daily_change_percentage :=
      if r.open_ = 0 then none else some ((r.close - r.open_) / r.open_ * 100) }

/-- parse_json: validate the payload shape, convert every entry to a row,
sort the frame ascending by date, then add the derived column.  In the
source the payload is read from a file at `path`; here the file content is
passed directly (the read is done by the caller, `transform`).  On an empty
row list `pd.DataFrame([])` has no columns at all, so
`.sort_values("date")` raises `KeyError: date`. -/
def parse_json (toDT : String → Option ℕ) (payload : _Payload) (symbol : String) :
    Except PyErr (List Row) := do
  let timeSeries ← _validate_payload payload symbol
  let rows ← timeSeries.mapM (parseEntry toDT symbol)
  if rows.isEmpty then throw (.keyError "date")
  else pure ((sortBy dateLe rows).map addDerived)

/-- FileSys models the `data/raw_data` directory: filename to JSON content,
in creation order. -/
abbrev FileSys := List (String × _Payload)

/-- lookupFile models opening and json-loading a file by name. -/
def lookupFile (fs : FileSys) (name : String) : Option _Payload :=
  (fs.find? (fun e => e.1 == name)).map (fun e => e.2)

/-- lexLt is strict lexicographic order on character lists, by code point;
this is exactly how Python compares the strings that `sorted` sorts. -/
def lexLt : List Char → List Char → Bool
  | _, [] => false
  | [], _ :: _ => true
  | a :: as, b :: bs => if a < b then true else if b < a then false else lexLt as bs

/-- strLt is Python string `<` (lexicographic by code point). -/
def strLt (s t : String) : Bool := lexLt s.data t.data

/-- strLe is Python string `<=`. -/
def strLe (s t : String) : Bool := !strLt t s

/-- snapshotName is the snapshot filename `{symbol}_{date}.json`. -/
def snapshotName (symbol today : String) : String :=
  symbol ++ "_" ++ today ++ ".json"

/-- matchesGlob models the glob pattern `{symbol}_*.json`: the filename
starts with `symbol ++ "_"`, ends with `".json"`, and the two parts do not
overlap. -/
def matchesGlob (symbol f : String) : Bool :=
  (symbol ++ "_").data.isPrefixOf f.data && ".json".data.isSuffixOf f.data &&
    decide ((symbol ++ "_").length + ".json".length ≤ f.length)

/-- _latest_file_for: `sorted(PATH.glob(f"{symbol}_*.json"))` and take the
last element; raises FileNotFoundError when no file matches.  Python sorts
the paths as strings, i.e. lexicographically by code point. -/
def _latest_file_for (symbol : String) (names : List String) :
    Except PyErr String :=
  let files := sortBy strLe (names.filter (matchesGlob symbol))
  match files.getLast? with
  | none => .error (.fileNotFoundError ("No json files for " ++ symbol))
  | some f => .ok f

/-- SYMBOLS is the fixed symbol list of the script. -/
def SYMBOLS : List String := ["AAPL", "GOOG", "MSFT"]

/-- key is the (symbol, date) pair that drop_duplicates and the final sort
use. -/
def key (r : Row) : String × ℕ := (r.symbol, r.date)

/-- dedupGo keeps a row iff its key has not occurred earlier (the rows whose
key is in `seen` or occurred before are dropped). -/
def dedupGo (seen : List (String × ℕ)) : List Row → List Row
  | [] => []
  | r :: rs =>
    if key r ∈ seen then dedupGo seen rs
    else r :: dedupGo (key r :: seen) rs

/-- drop_duplicates models `DataFrame.drop_duplicates(subset=["symbol",
"date"])` with the pandas default `keep="first"`: of all rows sharing a key,
the first occurrence is kept, in place. -/
def drop_duplicates (rows : List Row) : List Row := dedupGo [] rows

/-- keyLe is the ascending comparison for `sort_values(["symbol", "date"])`:
lexicographic on the (symbol, date) pair. -/
def keyLe (r1 r2 : Row) : Bool :=
  strLt r1.symbol r2.symbol ||
    (r1.symbol == r2.symbol && decide (r1.date ≤ r2.date))

/-- transformFrames is the loop of transform: for each requested symbol take
the latest snapshot file and parse it into a frame. -/
def transformFrames (toDT : String → Option ℕ) (fs : FileSys)
    (symbols : List String) : Except PyErr (List (List Row)) :=
  symbols.mapM (fun s => do
    let raw_path ← _latest_file_for s (fs.map (fun e => e.1))
    match lookupFile fs raw_path with
    | none => throw (.fileNotFoundError raw_path)
    | some payload => parse_json toDT payload s)

/-- transform: parse the latest snapshot of every requested symbol,
concatenate the frames (`pd.concat` of an empty frame list raises
ValueError), drop duplicate (symbol, date) keys keeping the first
occurrence, and sort by (symbol, date).  The `lookupFile` failure branch is
unreachable because `_latest_file_for` only returns names present in the
directory listing. -/
def transform (toDT : String → Option ℕ) (fs : FileSys)
    (symbols : List String := SYMBOLS) : Except PyErr (List Row) := do
  let frames ← transformFrames toDT fs symbols
  if frames.isEmpty then throw (.valueError "No objects to concatenate")
  else pure (sortBy keyLe (drop_duplicates frames.flatten))

/-- DBRow is one row of the sqlite table `stock_daily_data`: AUTOINCREMENT
surrogate `id`, the business key (symbol, date as ISO string), prices,
volume, the derived percentage, and the load timestamp. -/
structure DBRow where
  id : ℕ
  symbol : String
  date : String
  open_price : ℚ
  high_price : ℚ
  low_price : ℚ
  close_price : ℚ
  volume : ℤ
  daily_change_percentage : Option ℚ
  extraction_timestamp : String
deriving DecidableEq

/-- DB is the sqlite table state: rows in rowid order plus the next
AUTOINCREMENT id.  The UNIQUE(symbol, date) constraint appears as the Nodup
hypothesis of the load/upsert theorems. -/
structure DB where
  rows : List DBRow
  nextId : ℕ
deriving DecidableEq

/-- dbKey is the business key of a table row. -/
def dbKey (r : DBRow) : String × String := (r.symbol, r.date)

/-- OutRow is the tuple executemany binds for one dataframe row: renamed
price columns, the ISO date string, and the extraction timestamp shared by
the whole load call. -/
structure OutRow where
  symbol : String
  date : String
  open_price : ℚ
  high_price : ℚ
  low_price : ℚ
  close_price : ℚ
  volume : ℤ
  daily_change_percentage : Option ℚ
  extraction_timestamp : String
deriving DecidableEq

/-- toOut renames open/high/low/close to the _price column names, converts
the timestamp ordinal back to an ISO date string via the collaborator
`dateStr` (modelling `.dt.date.astype(str)`), and attaches the one
extraction timestamp `ts` computed for the load call. -/
def toOut (dateStr : ℕ → String) (ts : String) (r : Row) : OutRow :=
  { symbol := r.symbol, date := dateStr r.date, open_price := r.open_,
    high_price := r.high, low_price := r.low, close_price := r.close,
    volume := r.volume,
    daily_change_percentage := r.daily_change_percentage,
    extraction_timestamp := ts }

/-- updateFields is the DO UPDATE SET list of the upsert statement: every
non-key field except the surrogate id is overwritten from the excluded
row. -/
def updateFields (r : DBRow) (o : OutRow) : DBRow :=
  { r with open_price := o.open_price, high_price := o.high_price,
           low_price := o.low_price, close_price := o.close_price,
           volume := o.volume,
           daily_change_percentage := o.daily_change_percentage,
           extraction_timestamp := o.extraction_timestamp }

/-- newRow is the row INSERT creates for a novel key, with a fresh
AUTOINCREMENT id. -/
def newRow (id : ℕ) (o : OutRow) : DBRow :=
  { id := id, symbol := o.symbol, date := o.date, open_price := o.open_price,
    high_price := o.high_price, low_price := o.low_price,
    close_price := o.close_price, volume := o.volume,
    daily_change_percentage := o.daily_change_percentage,
    extraction_timestamp := o.extraction_timestamp }

/-- upsert models one execution of `INSERT INTO stock_daily_data ... ON
CONFLICT(symbol, date) DO UPDATE SET ...`: if a row with the key exists it
is updated in place (id and position untouched), otherwise a new row is
appended. -/
def upsert (db : DB) (o : OutRow) : DB :=
  if db.rows.any (fun r => decide (dbKey r = (o.symbol, o.date))) then
    { db with rows := db.rows.map (fun r =>
        if dbKey r = (o.symbol, o.date) then updateFields r o else r) }
  else
    { rows := db.rows ++ [newRow db.nextId o], nextId := db.nextId + 1 }

/-- load: an empty dataframe prints a notice and returns 0 without touching
the database; otherwise every row is upserted (executemany over the ON
CONFLICT statement, one shared timestamp `ts`) and the function falls off
its end, returning Python None (modelled `none`).  `init_db` (CREATE TABLE
IF NOT EXISTS) leaves an existing table unchanged and is implicit in the DB
state. -/
def load (db : DB) (df : List Row) (dateStr : ℕ → String) (ts : String) :
    DB × Option ℕ :=
  if df.isEmpty then (db, some 0)
  else (df.foldl (fun d r => upsert d (toOut dateStr ts r)) db, none)

/-- ExtState is the observable state of the extract phase: the raw_data
directory, the number of network calls made by `requests.get`, and the
lines printed so far. -/
structure ExtState where
  files : FileSys
  fetchCount : ℕ
  msgs : List String
deriving DecidableEq

/-- writeFile models `json.dump` to an opened file: replace the content if
the name exists, else create the file. -/
def writeFile (fs : FileSys) (name : String) (p : _Payload) : FileSys :=
  if fs.any (fun e => e.1 == name) then
    fs.map (fun e => if e.1 == name then (name, p) else e)
  else fs ++ [(name, p)]

/-- extract: if the snapshot for today already exists and overwrite is
false, print the skip notice and return the filename without any network
call; otherwise call the API (`fetch` models `requests.get` plus
`response.json()`; `none` is a transport failure or a non-success status,
on which `raise_for_status` raises) and write the snapshot file.  A failed
call still counts as one network call. -/
def extract (fetch : String → Option _Payload) (today : String)
    (symbol : String) (overwrite : Bool) (st : ExtState) :
    ExtState × Except PyErr String :=
  let filename := snapshotName symbol today
  if st.files.any (fun e => e.1 == filename) && !overwrite then
    ({ st with msgs := st.msgs ++
        [filename ++ " already exists. Use overwrite=True to force"] },
     .ok filename)
  else
    match fetch symbol with
    | none =>
      ({ st with fetchCount := st.fetchCount + 1 }, .error (.requestsError symbol))
    | some data =>
      ({ st with fetchCount := st.fetchCount + 1,
                 files := writeFile st.files filename data }, .ok filename)

/-- extractAll is the loop `for s in SYMBOLS: extract(s)` of run_once: there
is no try/except, so the first exception aborts the loop and propagates. -/
def extractAll (fetch : String → Option _Payload) (today : String) :
    List String → ExtState → ExtState × Option PyErr
  | [], st => (st, none)
  | s :: rest, st =>
    match extract fetch today s false st with
    | (st2, .ok _) => extractAll fetch today rest st2
    | (st2, .error e) => (st2, some e)

/-- run_once: extract every symbol of the fixed SYMBOLS list, then
`load(transform(SYMBOLS))`.  Any exception (from extract, transform or
load) propagates to the caller; nothing is caught or collected. -/
def run_once (fetch : String → Option _Payload) (today : String)
    (toDT : String → Option ℕ) (dateStr : ℕ → String) (ts : String)
    (st : ExtState) (db : DB) : ExtState × DB × Except PyErr (Option ℕ) :=
  match extractAll fetch today SYMBOLS st with
  | (st2, some e) => (st2, db, .error e)
  | (st2, none) =>
    match transform toDT st2.files SYMBOLS with
    | .error e => (st2, db, .error e)
    | .ok df =>
      let (db2, n) := load db df dateStr ts
      (st2, db2, .ok n)

/-! Lemmas about the stable sort. -/

/-- insertLe permutes: inserting produces a permutation of consing. -/
theorem insertLe_perm (le : α → α → Bool) (a : α) (l : List α) :
    (insertLe le a l).Perm (a :: l) := by
  induction l with
  | nil => exact .refl _
  | cons b bs ih =>
    simp only [insertLe]
    split
    · exact .refl _
    · exact (ih.cons b).trans (List.Perm.swap a b bs)

/-- sortBy permutes its input. -/
theorem sortBy_perm (le : α → α → Bool) (l : List α) :
    (sortBy le l).Perm l := by
  induction l with
  | nil => exact .refl _
  | cons a l ih => exact (insertLe_perm le a (sortBy le l)).trans (ih.cons a)

/-- insertLe preserves sortedness, given totality and transitivity of the
comparison. -/
theorem insertLe_pairwise (le : α → α → Bool)
    (htot : ∀ a b, le a b = true ∨ le b a = true)
    (htrans : ∀ a b c, le a b = true → le b c = true → le a c = true)
    (a : α) (l : List α) (h : l.Pairwise (fun x y => le x y = true)) :
    (insertLe le a l).Pairwise (fun x y => le x y = true) := by
  induction l with
  | nil => simp [insertLe]
  | cons b bs ih =>
    rcases h with - | ⟨hb, hbs⟩
    simp only [insertLe]
    split
    · rename_i hab
      refine .cons ?_ (.cons hb hbs)
      intro y hy
      rcases List.mem_cons.mp hy with rfl | hy
      · exact hab
      · exact htrans a b y hab (hb y hy)
    · rename_i hab
      have hba : le b a = true := (htot a b).resolve_left hab
      refine .cons ?_ (ih hbs)
      intro y hy
      have hy2 := (insertLe_perm le a bs).mem_iff.mp hy
      rcases List.mem_cons.mp hy2 with rfl | hy2
      · exact hba
      · exact hb y hy2

/-- sortBy sorts, given totality and transitivity of the comparison. -/
theorem sortBy_pairwise (le : α → α → Bool)
    (htot : ∀ a b, le a b = true ∨ le b a = true)
    (htrans : ∀ a b c, le a b = true → le b c = true → le a c = true)
    (l : List α) : (sortBy le l).Pairwise (fun x y => le x y = true) := by
  induction l with
  | nil => exact .nil
  | cons a l ih => exact insertLe_pairwise le htot htrans a (sortBy le l) ih

/-- Every member of a sorted list is below its last element. -/
theorem pairwise_le_of_getLast (le : α → α → Bool)
    (hrefl : ∀ a, le a a = true) (l : List α) (f : α)
    (hl : l.getLast? = some f)
    (hp : l.Pairwise (fun x y => le x y = true)) :
    ∀ x ∈ l, le x f = true := by
  induction l with
  | nil => simp at hl
  | cons a t ih =>
    rcases hp with - | ⟨ha, ht⟩
    cases t with
    | nil =>
      simp only [List.getLast?_singleton, Option.some.injEq] at hl
      subst hl
      intro x hx
      rcases List.mem_cons.mp hx with rfl | hx
      · exact hrefl x
      · cases hx
    | cons b t2 =>
      rw [List.getLast?_cons_cons] at hl
      intro x hx
      rcases List.mem_cons.mp hx with rfl | hx
      · exact ha f (List.mem_of_getLast?_eq_some hl)
      · exact ih hl ht x hx

/-! Lemmas about drop_duplicates. -/

/-- Rows whose key was already seen do not survive dedupGo. -/
theorem dedupGo_filter_of_mem (rows : List Row) :
    ∀ seen, ∀ k ∈ seen,
      (dedupGo seen rows).filter (fun r => decide (key r = k)) = [] := by
  induction rows with
  | nil => intro seen k _; rfl
  | cons r rs ih =>
    intro seen k hk
    simp only [dedupGo]
    split
    · exact ih seen k hk
    · rename_i hmem
      have hne : ¬ (key r = k) := fun h => hmem (h ▸ hk)
      rw [List.filter_cons_of_neg (by simpa using hne)]
      exact ih (key r :: seen) k (List.mem_cons_of_mem _ hk)

/-- For a key not yet seen, dedupGo keeps exactly the first row bearing it. -/
theorem dedupGo_filter (rows : List Row) :
    ∀ seen k, k ∉ seen →
      (dedupGo seen rows).filter (fun r => decide (key r = k)) =
        (rows.filter (fun r => decide (key r = k))).take 1 := by
  induction rows with
  | nil => intro seen k _; rfl
  | cons r rs ih =>
    intro seen k hk
    simp only [dedupGo]
    by_cases hmem : key r ∈ seen
    · rw [if_pos hmem]
      have hne : ¬ (key r = k) := fun h => hk (h ▸ hmem)
      rw [List.filter_cons_of_neg (by simpa using hne)]
      exact ih seen k hk
    · rw [if_neg hmem]
      by_cases hkr : key r = k
      · subst hkr
        rw [List.filter_cons_of_pos (by simp),
            List.filter_cons_of_pos (by simp),
            dedupGo_filter_of_mem rs (key r :: seen) (key r)
              (List.mem_cons_self _ _)]
        rfl
      · rw [List.filter_cons_of_neg (by simpa using hkr),
            List.filter_cons_of_neg (by simpa using hkr)]
        exact ih (key r :: seen) k (by
          intro hin
          rcases List.mem_cons.mp hin with heq | hin
          · exact hkr heq.symm
          · exact hk hin)

/-- drop_duplicates keeps, for every key, exactly the first row bearing it. -/
theorem drop_duplicates_filter (rows : List Row) (k : String × ℕ) :
    (drop_duplicates rows).filter (fun r => decide (key r = k)) =
      (rows.filter (fun r => decide (key r = k))).take 1 :=
  dedupGo_filter rows [] k (by simp)

/-! Lemmas about the lexicographic string order. -/

/-- lexLt is irreflexive. -/
theorem lexLt_irrefl (x : List Char) : lexLt x x = false := by
  induction x with
  | nil => rfl
  | cons a as ih => simp only [lexLt, if_neg (lt_irrefl a), ih]

/-- lexLt is transitive. -/
theorem lexLt_trans : ∀ (x y z : List Char),
    lexLt x y = true → lexLt y z = true → lexLt x z = true := by
  intro x
  induction x with
  | nil =>
    intro y z hxy hyz
    cases z with
    | nil =>
      cases y with
      | nil => simp [lexLt] at hxy
      | cons b bs => simp [lexLt] at hyz
    | cons c cs => simp [lexLt]
  | cons a as ih =>
    intro y z hxy hyz
    cases y with
    | nil => simp [lexLt] at hxy
    | cons b bs =>
      cases z with
      | nil => simp [lexLt] at hyz
      | cons c cs =>
        simp only [lexLt] at hxy hyz ⊢
        by_cases hab : a < b
        · by_cases hbc : b < c
          · rw [if_pos (lt_trans hab hbc)]
          · by_cases hcb : c < b
            · rw [if_neg hbc, if_pos hcb] at hyz; exact absurd hyz (by simp)
            · have hbceq : b = c := le_antisymm (not_lt.mp hcb) (not_lt.mp hbc)
              subst hbceq
              rw [if_pos hab]
        · by_cases hba : b < a
          · rw [if_neg hab, if_pos hba] at hxy; exact absurd hxy (by simp)
          · have habeq : a = b := le_antisymm (not_lt.mp hba) (not_lt.mp hab)
            subst habeq
            rw [if_neg hab, if_neg hba] at hxy
            by_cases hac : a < c
            · rw [if_pos hac]
            · by_cases hca : c < a
              · rw [if_neg hac, if_pos hca] at hyz; exact absurd hyz (by simp)
              · rw [if_neg hac, if_neg hca] at hyz ⊢
                exact ih bs cs hxy hyz

/-- lexLt is connected: distinct lists compare one way or the other. -/
theorem lexLt_connex : ∀ (x y : List Char), x ≠ y →
    lexLt x y = true ∨ lexLt y x = true := by
  intro x
  induction x with
  | nil =>
    intro y hne
    cases y with
    | nil => exact absurd rfl hne
    | cons b bs => left; rfl
  | cons a as ih =>
    intro y hne
    cases y with
    | nil => right; rfl
    | cons b bs =>
      simp only [lexLt]
      rcases lt_trichotomy a b with hab | hab | hab
      · left; rw [if_pos hab]
      · subst hab
        simp only [if_neg (lt_irrefl a)]
        have hne2 : as ≠ bs := by
          intro h; exact hne (h ▸ rfl)
        exact ih bs hne2
      · right; rw [if_pos hab]

/-- Lists with a common prefix compare as their remainders do. -/
theorem lexLt_append_left (p x y : List Char) :
    lexLt (p ++ x) (p ++ y) = lexLt x y := by
  induction p with
  | nil => rfl
  | cons a ps ih =>
    simp only [List.cons_append, lexLt, if_neg (lt_irrefl a)]
    simpa using ih

/-- Lists of equal length with a common suffix compare as their initial
parts do. -/
theorem lexLt_append_right (t : List Char) :
    ∀ (x y : List Char), x.length = y.length →
      lexLt (x ++ t) (y ++ t) = lexLt x y := by
  intro x
  induction x with
  | nil =>
    intro y hlen
    cases y with
    | nil => simp only [List.nil_append, lexLt_irrefl]
    | cons b bs => simp at hlen
  | cons a as ih =>
    intro y hlen
    cases y with
    | nil => simp at hlen
    | cons b bs =>
      simp only [List.cons_append, lexLt]
      by_cases hab : a < b
      · rw [if_pos hab, if_pos hab]
      · by_cases hba : b < a
        · rw [if_neg hab, if_pos hba, if_neg hab, if_pos hba]
        · rw [if_neg hab, if_neg hba, if_neg hab, if_neg hba]
          exact ih bs (by simpa using hlen)

/-- strLe is reflexive. -/
theorem strLe_refl (s : String) : strLe s s = true := by
  simp [strLe, strLt, lexLt_irrefl]

/-- strLe is total. -/
theorem strLe_total (s t : String) : strLe s t = true ∨ strLe t s = true := by
  by_cases h : lexLt t.data s.data = true
  · right
    simp only [strLe, strLt, Bool.not_eq_eq_eq_not, Bool.not_true]
    by_cases h2 : lexLt s.data t.data = true
    · exact absurd (lexLt_trans _ _ _ h h2) (by simp [lexLt_irrefl])
    · simpa using h2
  · left
    simp only [strLe, strLt, Bool.not_eq_eq_eq_not, Bool.not_true]
    simpa using h

/-- Strings with equal character data are equal. -/
theorem strData_inj {s t : String} (h : s.data = t.data) : s = t :=
  String.toList_inj.mp h

/-- strLe is transitive. -/
theorem strLe_trans (s t u : String) (hst : strLe s t = true)
    (htu : strLe t u = true) : strLe s u = true := by
  simp only [strLe, strLt, Bool.not_eq_eq_eq_not, Bool.not_true] at hst htu ⊢
  by_cases hus : lexLt u.data s.data = true
  · exfalso
    by_cases hsteq : s.data = t.data
    · rw [hsteq] at hus
      rw [htu] at hus
      cases hus
    · rcases lexLt_connex s.data t.data hsteq with h1 | h1
      · have h2 := lexLt_trans u.data s.data t.data hus h1
        rw [htu] at h2
        cases h2
      · rw [hst] at h1
        cases h1
  · simpa using hus

/-- keyLe is total. -/
theorem keyLe_total (r1 r2 : Row) : keyLe r1 r2 = true ∨ keyLe r2 r1 = true := by
  simp only [keyLe, Bool.or_eq_true, Bool.and_eq_true, beq_iff_eq,
    decide_eq_true_eq]
  by_cases heq : r1.symbol = r2.symbol
  · rcases Nat.le_total r1.date r2.date with h | h
    · exact Or.inl (Or.inr ⟨heq, h⟩)
    · exact Or.inr (Or.inr ⟨heq.symm, h⟩)
  · have hda : r1.symbol.data ≠ r2.symbol.data := fun h => heq (strData_inj h)
    rcases lexLt_connex _ _ hda with h | h
    · exact Or.inl (Or.inl h)
    · exact Or.inr (Or.inl h)

/-- keyLe is transitive. -/
theorem keyLe_trans (r1 r2 r3 : Row) (h12 : keyLe r1 r2 = true)
    (h23 : keyLe r2 r3 = true) : keyLe r1 r3 = true := by
  simp only [keyLe, Bool.or_eq_true, Bool.and_eq_true, beq_iff_eq,
    decide_eq_true_eq] at h12 h23 ⊢
  rcases h12 with h12 | ⟨he12, hd12⟩
  · rcases h23 with h23 | ⟨he23, hd23⟩
    · exact Or.inl (lexLt_trans _ _ _ h12 h23)
    · left
      rw [← he23]
      exact h12
  · rcases h23 with h23 | ⟨he23, hd23⟩
    · left
      rw [he12]
      exact h23
    · exact Or.inr ⟨he12.trans he23, le_trans hd12 hd23⟩

/-! Lemmas about the sqlite table and the upsert. -/

/-- updateFields does not change the business key. -/
theorem dbKey_updateFields (r : DBRow) (o : OutRow) :
    dbKey (updateFields r o) = dbKey r := rfl

/-- With a UNIQUE(symbol, date) constraint, at most one row bears a key. -/
theorem filter_dbKey_length_le_one (rows : List DBRow)
    (hnod : (rows.map dbKey).Nodup) (k : String × String) :
    (rows.filter (fun r => decide (dbKey r = k))).length ≤ 1 := by
  induction rows with
  | nil => simp
  | cons r rs ih =>
    rw [List.map_cons, List.nodup_cons] at hnod
    by_cases hk : dbKey r = k
    · rw [List.filter_cons_of_pos (by simpa using hk)]
      have hnil : rs.filter (fun x => decide (dbKey x = k)) = [] := by
        rw [List.filter_eq_nil_iff]
        intro x hx hdx
        apply hnod.1
        rw [hk, ← (by simpa using hdx : dbKey x = k)]
        exact List.mem_map_of_mem dbKey hx
      rw [hnil]
      simp
    · rw [List.filter_cons_of_neg (by simpa using hk)]
      exact ih hnod.2

/-- A present key is borne by at least one row. -/
theorem filter_dbKey_length_pos (rows : List DBRow) (k : String × String)
    (hmem : k ∈ rows.map dbKey) :
    0 < (rows.filter (fun r => decide (dbKey r = k))).length := by
  rw [List.length_pos]
  intro hnil
  rcases List.mem_map.mp hmem with ⟨r, hr, hk⟩
  exact (List.filter_eq_nil_iff.mp hnil) r hr (by simpa using hk)

/-- When the key exists, the upsert takes the DO UPDATE branch: rows are
rewritten in place and the AUTOINCREMENT counter does not move. -/
theorem upsert_existing (db : DB) (o : OutRow)
    (hmem : (o.symbol, o.date) ∈ db.rows.map dbKey) :
    upsert db o =
      { rows := db.rows.map (fun r =>
          if dbKey r = (o.symbol, o.date) then updateFields r o else r),
        nextId := db.nextId } := by
  rcases List.mem_map.mp hmem with ⟨r, hr, hk⟩
  rw [upsert, if_pos]
  rw [List.any_eq_true]
  exact ⟨r, hr, by simpa using hk⟩

/-- When the key is novel, the upsert takes the INSERT branch: a fresh row
is appended with the next AUTOINCREMENT id. -/
theorem upsert_novel (db : DB) (o : OutRow)
    (hnot : (o.symbol, o.date) ∉ db.rows.map dbKey) :
    upsert db o =
      { rows := db.rows ++ [newRow db.nextId o], nextId := db.nextId + 1 } := by
  rw [upsert, if_neg]
  intro hany
  rcases List.any_eq_true.mp hany with ⟨r, hr, hk⟩
  exact hnot (by
    have : dbKey r = (o.symbol, o.date) := by simpa using hk
    exact this ▸ List.mem_map_of_mem dbKey hr)

/-- After an upsert the table holds exactly one row bearing the key. -/
theorem upsert_unique_key (db : DB) (o : OutRow)
    (hnod : (db.rows.map dbKey).Nodup) :
    ((upsert db o).rows.filter
      (fun r => decide (dbKey r = (o.symbol, o.date)))).length = 1 := by
  by_cases hmem : (o.symbol, o.date) ∈ db.rows.map dbKey
  · rw [upsert_existing db o hmem]
    dsimp only
    have hmapkey : (db.rows.map (fun r =>
        if dbKey r = (o.symbol, o.date) then updateFields r o else r)).map dbKey
        = db.rows.map dbKey := by
      rw [List.map_map]
      apply List.map_congr_left
      intro r _
      by_cases hk : dbKey r = (o.symbol, o.date)
      · simp [hk, dbKey_updateFields]
      · simp [hk]
    have hnod2 : ((db.rows.map (fun r =>
        if dbKey r = (o.symbol, o.date) then updateFields r o else r)).map dbKey).Nodup := by
      rw [hmapkey]; exact hnod
    have hmem2 : (o.symbol, o.date) ∈ (db.rows.map (fun r =>
        if dbKey r = (o.symbol, o.date) then updateFields r o else r)).map dbKey := by
      rw [hmapkey]; exact hmem
    have hle := filter_dbKey_length_le_one
      (db.rows.map (fun r =>
        if dbKey r = (o.symbol, o.date) then updateFields r o else r))
      hnod2 (o.symbol, o.date)
    have hpos := filter_dbKey_length_pos
      (db.rows.map (fun r =>
        if dbKey r = (o.symbol, o.date) then updateFields r o else r))
      (o.symbol, o.date) hmem2
    omega
  · rw [upsert_novel db o hmem, List.filter_append]
    have h1 : db.rows.filter (fun r => decide (dbKey r = (o.symbol, o.date))) = [] := by
      rw [List.filter_eq_nil_iff]
      intro x hx hdx
      exact hmem ((by simpa using hdx : dbKey x = (o.symbol, o.date)) ▸
        List.mem_map_of_mem dbKey hx)
    rw [h1]
    simp [dbKey, newRow]

/-- Binding a success runs the continuation. -/
theorem except_bind_ok (a : α) (f : α → Except ε β) :
    (Except.ok a >>= f : Except ε β) = f a := rfl

/-- Binding a failure short-circuits. -/
theorem except_bind_error (e : ε) (f : α → Except ε β) :
    (Except.error e >>= f : Except ε β) = Except.error e := rfl

/-- throw is the error constructor. -/
theorem except_throw (e : ε) : (throw e : Except ε α) = Except.error e := rfl

/-- pure is the ok constructor. -/
theorem except_pure (a : α) : (pure a : Except ε α) = Except.ok a := rfl

/-- A successful transform must have parsed every frame. -/
theorem transform_ok_frames (toDT : String → Option ℕ) (fs : FileSys)
    (symbols : List String) (rows : List Row)
    (ht : transform toDT fs symbols = .ok rows) :
    ∃ frames, transformFrames toDT fs symbols = .ok frames := by
  cases hf : transformFrames toDT fs symbols with
  | error e => rw [transform, hf, except_bind_error] at ht; cases ht
  | ok frames => exact ⟨frames, rfl⟩

/-- The rows of a successful transform are the concatenated frames,
deduplicated keeping first occurrences, sorted by (symbol, date). -/
theorem transform_ok_eq (toDT : String → Option ℕ) (fs : FileSys)
    (symbols : List String) (frames : List (List Row)) (rows : List Row)
    (hf : transformFrames toDT fs symbols = .ok frames)
    (ht : transform toDT fs symbols = .ok rows) :
    rows = sortBy keyLe (drop_duplicates frames.flatten) := by
  rw [transform, hf, except_bind_ok] at ht
  by_cases hempty : frames.isEmpty
  · rw [if_pos hempty, except_throw] at ht
    cases ht
  · rw [if_neg hempty, except_pure] at ht
    exact (Except.ok.inj ht).symm

/-- A write makes the filename present in the directory. -/
theorem writeFile_any (fs : FileSys) (n : String) (p : _Payload) :
    (writeFile fs n p).any (fun e => e.1 == n) = true := by
  rw [writeFile]
  split
  · rename_i hany
    rcases List.any_eq_true.mp hany with ⟨e, he, hn⟩
    rw [List.any_eq_true]
    refine ⟨(n, p), ?_, by simp⟩
    rw [List.mem_map]
    refine ⟨e, he, ?_⟩
    show (if e.1 == n then (n, p) else e) = (n, p)
    rw [if_pos hn]
  · rw [List.any_eq_true]
    exact ⟨(n, p), List.mem_append_right _ (by simp), by simp⟩

/-! Concrete inputs used by the claim witnesses and counterexamples. -/

/-- toDT0 is a concrete stand-in for pd.to_datetime on the date strings
used below.  pd.to_datetime normalizes "2024-01-02" and "2024-01-02 00:00"
to the same midnight Timestamp; toDT0 reflects that real behavior. -/
def toDT0 : String → Option ℕ := fun d =>
  if d = "2024-01-02" then some 2
  else if d = "2024-01-02 00:00" then some 2
  else if d = "2024-01-03" then some 3
  else none

/-- dS0 is a concrete stand-in for the date-to-ISO-string conversion of the
load phase. -/
def dS0 : ℕ → String := fun n =>
  if n = 2 then "2024-01-02" else if n = 3 then "2024-01-03" else "1970-01-01"

/-- barC5 is a raw bar: open "10", high "20", low "5", close "5",
volume "100". -/
def barC5 : _DailyBar :=
  { open_ := .str (some 10) none, high := .str (some 20) none,
    low := .str (some 5) none, close := .str (some 5) none,
    volume := .str none (some 100) }

/-- barC7 is like barC5 but with close "7". -/
def barC7 : _DailyBar :=
  { open_ := .str (some 10) none, high := .str (some 20) none,
    low := .str (some 5) none, close := .str (some 7) none,
    volume := .str none (some 100) }

/-- barZ0 is a raw bar whose open field is the string "0" (so float() reads
0), with close "5". -/
def barZ0 : _DailyBar :=
  { open_ := .str (some 0) (some 0), high := .str (some 20) none,
    low := .str (some 0) (some 0), close := .str (some 5) none,
    volume := .str none (some 100) }

/-- payloadGG holds two entries whose date strings pd.to_datetime maps to
the same Timestamp, with different closes. -/
def payloadGG : _Payload :=
  ⟨some [("2024-01-02", barC5), ("2024-01-02 00:00", barC7)]⟩

/-- payloadA holds one entry. -/
def payloadA : _Payload := ⟨some [("2024-01-02", barC5)]⟩

/-- payloadMA holds two dates, deliberately listed newest first. -/
def payloadMA : _Payload :=
  ⟨some [("2024-01-03", barC7), ("2024-01-02", barC5)]⟩

/-- payloadZ holds one entry whose open is "0". -/
def payloadZ : _Payload := ⟨some [("2024-01-02", barZ0)]⟩

/-- payloadE has the series container present but empty. -/
def payloadE : _Payload := ⟨some []⟩

/-- filesG is a raw_data directory with one GOOG snapshot. -/
def filesG : FileSys := [("GOOG_2024-01-05.json", payloadGG)]

/-- filesMA is a raw_data directory with one MSFT and one AAPL snapshot. -/
def filesMA : FileSys :=
  [("MSFT_2024-01-06.json", payloadMA), ("AAPL_2024-01-06.json", payloadMA)]

/-- rG5 is the parsed row of barC5 for GOOG. -/
def rG5 : Row :=
  { symbol := "GOOG", date := 2, open_ := 10, high := 20, low := 5, close := 5,
    volume := 100, daily_change_percentage := some ((5 - 10) / 10 * 100) }

/-- rG7 is the parsed row of barC7 for GOOG. -/
def rG7 : Row :=
  { symbol := "GOOG", date := 2, open_ := 10, high := 20, low := 5, close := 7,
    volume := 100, daily_change_percentage := some ((7 - 10) / 10 * 100) }

/-- rA2, rA3, rM2, rM3 are the parsed rows of filesMA. -/
def rA2 : Row :=
  { symbol := "AAPL", date := 2, open_ := 10, high := 20, low := 5, close := 5,
    volume := 100, daily_change_percentage := some ((5 - 10) / 10 * 100) }

/-- rA3 is the AAPL row for the later date. -/
def rA3 : Row :=
  { symbol := "AAPL", date := 3, open_ := 10, high := 20, low := 5, close := 7,
    volume := 100, daily_change_percentage := some ((7 - 10) / 10 * 100) }

/-- rM2 is the MSFT row for the earlier date. -/
def rM2 : Row :=
  { symbol := "MSFT", date := 2, open_ := 10, high := 20, low := 5, close := 5,
    volume := 100, daily_change_percentage := some ((5 - 10) / 10 * 100) }

/-- rM3 is the MSFT row for the later date. -/
def rM3 : Row :=
  { symbol := "MSFT", date := 3, open_ := 10, high := 20, low := 5, close := 7,
    volume := 100, daily_change_percentage := some ((7 - 10) / 10 * 100) }

/-- dbEmpty is a fresh table. -/
def dbEmpty : DB := ⟨[], 1⟩

/-- dbRow1 is a persisted row for (GOOG, 2024-01-02). -/
def dbRow1 : DBRow :=
  ⟨1, "GOOG", "2024-01-02", 1, 2, 1, 2, 50, some 99, "2024-01-01T00:00:00Z"⟩

/-- dbOne is a table holding dbRow1, next id 2. -/
def dbOne : DB := ⟨[dbRow1], 2⟩

/-- fetch0 is a remote collaborator that fails for GOOG and returns
payloadA for every other symbol. -/
def fetch0 : String → Option _Payload := fun s =>
  if s = "GOOG" then none else some payloadA

/-- st0 is the initial extract state: empty directory, no calls, no
output. -/
def st0 : ExtState := ⟨[], 0, []⟩

/-- stA is st0 after a successful AAPL extract on 2024-01-06. -/
def stA : ExtState := ⟨[("AAPL_2024-01-06.json", payloadA)], 1, []⟩

/-- stA2 is stA after the failed GOOG fetch. -/
def stA2 : ExtState := ⟨[("AAPL_2024-01-06.json", payloadA)], 2, []⟩

/-! Claim theorems. -/

/-- C2 (code_bug): at the failing input — a validated snapshot entry whose
open field is the string "0" — parse_json raises no data-quality error: it
returns a normalized row whose daily_change_percentage is the non-finite
float that numpy produces for (5 - 0) / 0 * 100 (modelled `none`),
contradicting the spec invariant that a zero open is a data-quality
error. -/
theorem parse_json_zero_open_yields_nonfinite :
    parse_json toDT0 payloadZ "AAPL" =
      .ok [{ symbol := "AAPL", date := 2, open_ := 0, high := 20, low := 0,
             close := 5, volume := 100, daily_change_percentage := none }] :=
  rfl

/-- C10 (confirmed): a payload that passes shape validation but whose time
series holds zero date entries makes parse_json raise: pd.DataFrame([]) has
no columns, so sort_values("date") raises KeyError rather than returning an
empty dataset. -/
theorem parse_json_empty_series_raises (toDT : String → Option ℕ)
    (payload : _Payload) (symbol : String) (h : payload.ts = some []) :
    parse_json toDT payload symbol = .error (.keyError "date") := by
  rw [parse_json, _validate_payload, h]
  rfl

/-- C10 witness: the concrete empty-but-well-formed payload. -/
theorem parse_json_empty_series_raises_witness :
    payloadE.ts = some [] ∧
    parse_json toDT0 payloadE "AAPL" = .error (.keyError "date") :=
  ⟨rfl, parse_json_empty_series_raises toDT0 payloadE "AAPL" rfl⟩

/-- C4 counterexample: loading the one-row dataset [rG5] returns Python None
(modelled `none`), not the row count 1: the source function only returns a
value (0) on the empty branch and falls off its end otherwise. -/
theorem load_nonempty_returns_none :
    (load dbEmpty [rG5] dS0 "2024-01-06T00:00:00Z").2 = none ∧
    (load dbEmpty [rG5] dS0 "2024-01-06T00:00:00Z").2 ≠ some 1 := by
  refine ⟨rfl, ?_⟩
  intro h
  rw [show (load dbEmpty [rG5] dS0 "2024-01-06T00:00:00Z").2 = none from rfl] at h
  cases h

/-- C4 (corrected): load returns 0 for an empty dataset without touching the
table; for a non-empty dataset it upserts every row (the fold of upserts
over the dataframe) but returns None rather than the row count — the Python
function has no return statement on that path. -/
theorem load_return_contract (db : DB) (df : List Row) (dateStr : ℕ → String)
    (ts : String) :
    (df = [] → load db df dateStr ts = (db, some 0)) ∧
    (df ≠ [] → (load db df dateStr ts).2 = none ∧
      (load db df dateStr ts).1 =
        df.foldl (fun d r => upsert d (toOut dateStr ts r)) db) := by
  constructor
  · intro h
    subst h
    rfl
  · intro h
    rw [load, if_neg (by simpa [List.isEmpty_iff] using h)]
    exact ⟨rfl, rfl⟩

/-- C4 witness: the contract evaluated at the concrete one-row dataset. -/
theorem load_return_contract_witness :
    [rG5] ≠ ([] : List Row) ∧
    ((load dbEmpty [rG5] dS0 "T").2 = none ∧
      (load dbEmpty [rG5] dS0 "T").1 =
        [rG5].foldl (fun d r => upsert d (toOut dS0 "T" r)) dbEmpty) :=
  ⟨List.cons_ne_nil _ _,
    (load_return_contract dbEmpty [rG5] dS0 "T").2 (List.cons_ne_nil _ _)⟩

/-- C8 (confirmed): every successful transform output is sorted ascending
by the (symbol, date) key — keyLe is the lexicographic comparison on
(symbol, date) with symbols compared as Python strings — for every store,
every symbol list and every per-snapshot entry order. -/
theorem transform_sorted_by_symbol_date (toDT : String → Option ℕ)
    (fs : FileSys) (symbols : List String) (rows : List Row)
    (h : transform toDT fs symbols = .ok rows) :
    rows.Pairwise (fun r1 r2 => keyLe r1 r2 = true) := by
  rcases transform_ok_frames toDT fs symbols rows h with ⟨frames, hf⟩
  rw [transform_ok_eq toDT fs symbols frames rows hf h]
  exact sortBy_pairwise keyLe keyLe_total keyLe_trans _

/-- C8 witness: the spec example — symbols [MSFT, AAPL], two dates each,
per-snapshot entries listed newest first — comes out (AAPL, d1), (AAPL,
d2), (MSFT, d1), (MSFT, d2). -/
theorem transform_sorted_by_symbol_date_witness :
    transform toDT0 filesMA ["MSFT", "AAPL"] = .ok [rA2, rA3, rM2, rM3] ∧
    List.Pairwise (fun r1 r2 => keyLe r1 r2 = true) [rA2, rA3, rM2, rM3] :=
  ⟨rfl, transform_sorted_by_symbol_date toDT0 filesMA ["MSFT", "AAPL"]
    [rA2, rA3, rM2, rM3] rfl⟩

/-- C1 counterexample: transform(["GOOG", "GOOG"]) parses the same latest
GOOG snapshot twice; the two parsed snapshots share the key (GOOG, 2) (the
snapshot holds two date strings that pd.to_datetime maps to one Timestamp,
with different closes).  The output holds exactly one row for the key — but
it is rG5, the first-seen occurrence in concatenation order, while the
last-seen occurrence is rG7, which differs (close 5 vs 7).  So the row kept
is not the last-seen occurrence. -/
theorem transform_dedup_not_last_seen :
    transformFrames toDT0 filesG ["GOOG", "GOOG"] =
      .ok [[rG5, rG7], [rG5, rG7]] ∧
    transform toDT0 filesG ["GOOG", "GOOG"] = .ok [rG5] ∧
    (([[rG5, rG7], [rG5, rG7]] : List (List Row)).flatten.filter
      (fun r => decide (key r = ("GOOG", 2)))).getLast? = some rG7 ∧
    rG5.close ≠ rG7.close :=
  ⟨rfl, rfl, rfl, by decide⟩

/-- C1 (corrected): when parsed snapshots share a (symbol, date) key,
transform returns exactly one row for that key, and the row kept is the
first-seen occurrence in concatenation order (pandas drop_duplicates
defaults to keep first), not the last-seen one: for every key, the output
rows bearing it are the first row bearing it in the concatenated frames. -/
theorem transform_dedup_keeps_first (toDT : String → Option ℕ)
    (fs : FileSys) (symbols : List String) (frames : List (List Row))
    (rows : List Row) (k : String × ℕ)
    (hf : transformFrames toDT fs symbols = .ok frames)
    (ht : transform toDT fs symbols = .ok rows) :
    rows.filter (fun r => decide (key r = k)) =
      (frames.flatten.filter (fun r => decide (key r = k))).take 1 := by
  rw [transform_ok_eq toDT fs symbols frames rows hf ht]
  have hperm := (sortBy_perm keyLe (drop_duplicates frames.flatten)).filter
    (fun r => decide (key r = k))
  rw [drop_duplicates_filter] at hperm
  cases hcase : frames.flatten.filter (fun r => decide (key r = k)) with
  | nil =>
    rw [hcase] at hperm
    simpa using hperm.eq_nil
  | cons a t =>
    rw [hcase] at hperm
    simp only [List.take_succ_cons, List.take_zero] at hperm ⊢
    exact List.perm_singleton.mp hperm

/-- C1 witness: the amended claim evaluated at the concrete store — the
kept row for (GOOG, 2) is the first occurrence rG5. -/
theorem transform_dedup_keeps_first_witness :
    transformFrames toDT0 filesG ["GOOG", "GOOG"] =
      .ok [[rG5, rG7], [rG5, rG7]] ∧
    transform toDT0 filesG ["GOOG", "GOOG"] = .ok [rG5] ∧
    [rG5].filter (fun r => decide (key r = ("GOOG", 2))) =
      (([[rG5, rG7], [rG5, rG7]] : List (List Row)).flatten.filter
        (fun r => decide (key r = ("GOOG", 2)))).take 1 :=
  ⟨rfl, rfl, transform_dedup_keeps_first toDT0 filesG ["GOOG", "GOOG"]
    [[rG5, rG7], [rG5, rG7]] [rG5] ("GOOG", 2) rfl rfl⟩

/-- C5 (confirmed): loading a row upserts it: if the (symbol, date) key
already exists in the table (whose keys are unique, per the UNIQUE
constraint), the existing row is overwritten in place — prices, volume,
derived percentage and timestamp are replaced by updateFields, the
surrogate id and row position are untouched, the AUTOINCREMENT counter does
not move — and exactly one row bears the key afterwards; a novel key gets a
freshly appended row with the next id. -/
theorem load_upsert_semantics (db : DB) (dateStr : ℕ → String) (ts : String)
    (r : Row) (hnod : (db.rows.map dbKey).Nodup) :
    (load db [r] dateStr ts).1 = upsert db (toOut dateStr ts r) ∧
    ((upsert db (toOut dateStr ts r)).rows.filter
      (fun x => decide (dbKey x = (r.symbol, dateStr r.date)))).length = 1 ∧
    ((r.symbol, dateStr r.date) ∈ db.rows.map dbKey →
      upsert db (toOut dateStr ts r) =
        { rows := db.rows.map (fun x =>
            if dbKey x = (r.symbol, dateStr r.date)
            then updateFields x (toOut dateStr ts r) else x),
          nextId := db.nextId }) ∧
    ((r.symbol, dateStr r.date) ∉ db.rows.map dbKey →
      upsert db (toOut dateStr ts r) =
        { rows := db.rows ++ [newRow db.nextId (toOut dateStr ts r)],
          nextId := db.nextId + 1 }) := by
  refine ⟨rfl, ?_, ?_, ?_⟩
  · exact upsert_unique_key db (toOut dateStr ts r) hnod
  · intro hmem
    exact upsert_existing db (toOut dateStr ts r) hmem
  · intro hnot
    exact upsert_novel db (toOut dateStr ts r) hnot

/-- C5 witness: upserting rG5 into a table already holding its key
(GOOG, 2024-01-02). -/
theorem load_upsert_semantics_witness :
    (dbOne.rows.map dbKey).Nodup ∧
    ((load dbOne [rG5] dS0 "T").1 = upsert dbOne (toOut dS0 "T" rG5) ∧
      ((upsert dbOne (toOut dS0 "T" rG5)).rows.filter
        (fun x => decide (dbKey x = (rG5.symbol, dS0 rG5.date)))).length = 1 ∧
      ((rG5.symbol, dS0 rG5.date) ∈ dbOne.rows.map dbKey →
        upsert dbOne (toOut dS0 "T" rG5) =
          { rows := dbOne.rows.map (fun x =>
              if dbKey x = (rG5.symbol, dS0 rG5.date)
              then updateFields x (toOut dS0 "T" rG5) else x),
            nextId := dbOne.nextId }) ∧
      ((rG5.symbol, dS0 rG5.date) ∉ dbOne.rows.map dbKey →
        upsert dbOne (toOut dS0 "T" rG5) =
          { rows := dbOne.rows ++ [newRow dbOne.nextId (toOut dS0 "T" rG5)],
            nextId := dbOne.nextId + 1 })) :=
  ⟨by decide, load_upsert_semantics dbOne dS0 "T" rG5 (by decide)⟩

/-- C6 (confirmed): starting from a state without the snapshot for today,
a first extract with overwrite false makes exactly one network call and
writes the snapshot; the immediately repeated extract makes no further
network call, changes no file, prints the already-exists skip notice (the
skipped marker of this script) and returns the same snapshot path. -/
theorem extract_idempotent_same_day (fetch : String → Option _Payload)
    (today symbol : String) (st : ExtState) (p : _Payload)
    (habs : st.files.any (fun e => e.1 == snapshotName symbol today) = false)
    (hfetch : fetch symbol = some p) :
    extract fetch today symbol false st =
      ({ st with fetchCount := st.fetchCount + 1,
                 files := writeFile st.files (snapshotName symbol today) p },
       .ok (snapshotName symbol today)) ∧
    extract fetch today symbol false
        { st with fetchCount := st.fetchCount + 1,
                  files := writeFile st.files (snapshotName symbol today) p } =
      ({ st with fetchCount := st.fetchCount + 1,
                 files := writeFile st.files (snapshotName symbol today) p,
                 msgs := st.msgs ++ [snapshotName symbol today ++
                   " already exists. Use overwrite=True to force"] },
       .ok (snapshotName symbol today)) := by
  constructor
  · rw [extract]
    simp only [habs, Bool.false_and, Bool.false_eq_true, if_false, hfetch]
  · rw [extract]
    simp only [writeFile_any, Bool.not_false, Bool.and_true, if_true]

/-- C6 witness: the two calls evaluated for AAPL on an empty directory. -/
theorem extract_idempotent_same_day_witness :
    st0.files.any (fun e => e.1 == snapshotName "AAPL" "2024-01-06") = false ∧
    fetch0 "AAPL" = some payloadA ∧
    (extract fetch0 "2024-01-06" "AAPL" false st0 =
      ({ st0 with fetchCount := st0.fetchCount + 1,
                  files := writeFile st0.files
                    (snapshotName "AAPL" "2024-01-06") payloadA },
       .ok (snapshotName "AAPL" "2024-01-06")) ∧
    extract fetch0 "2024-01-06" "AAPL" false
        { st0 with fetchCount := st0.fetchCount + 1,
                   files := writeFile st0.files
                     (snapshotName "AAPL" "2024-01-06") payloadA } =
      ({ st0 with fetchCount := st0.fetchCount + 1,
                  files := writeFile st0.files
                    (snapshotName "AAPL" "2024-01-06") payloadA,
                  msgs := st0.msgs ++ [snapshotName "AAPL" "2024-01-06" ++
                    " already exists. Use overwrite=True to force"] },
       .ok (snapshotName "AAPL" "2024-01-06"))) :=
  ⟨rfl, rfl,
    extract_idempotent_same_day fetch0 "2024-01-06" "AAPL" st0 payloadA rfl rfl⟩

/-- C3 counterexample: for the script symbol list [AAPL, GOOG, MSFT] and a
remote collaborator failing only for GOOG, run_once aborts at GOOG: AAPL
got its snapshot, but MSFT is never attempted (its snapshot is absent and
only two network calls were made), the error propagates, and nothing is
transformed or loaded — refuting that a fetch failure for one symbol does
not stop extraction of the remaining symbols. -/
theorem run_once_fetch_failure_stops_batch :
    run_once fetch0 "2024-01-06" toDT0 dS0 "TS0" st0 dbEmpty =
      (stA2, dbEmpty, .error (.requestsError "GOOG")) ∧
    "AAPL_2024-01-06.json" ∈ stA2.files.map (fun e => e.1) ∧
    "MSFT_2024-01-06.json" ∉ stA2.files.map (fun e => e.1) ∧
    stA2.fetchCount = 2 :=
  ⟨rfl, by decide, by decide, rfl⟩

/-- C3 (corrected): in run_once a successful AAPL extract followed by a
failed GOOG fetch aborts the whole run: the returned state is exactly the
state after the failed GOOG extract (MSFT is never attempted), the table is
untouched (transform and load never run), and the error propagates instead
of being reported per symbol. -/
theorem run_once_aborts_on_fetch_error (fetch : String → Option _Payload)
    (today : String) (toDT : String → Option ℕ) (dateStr : ℕ → String)
    (ts : String) (st : ExtState) (db : DB) (st1 st2 : ExtState)
    (f1 : String) (e : PyErr)
    (h1 : extract fetch today "AAPL" false st = (st1, .ok f1))
    (h2 : extract fetch today "GOOG" false st1 = (st2, .error e)) :
    run_once fetch today toDT dateStr ts st db = (st2, db, .error e) := by
  have hall : extractAll fetch today SYMBOLS st = (st2, some e) := by
    rw [SYMBOLS]
    rw [extractAll.eq_def]
    dsimp only
    rw [h1]
    dsimp only
    rw [extractAll.eq_def]
    dsimp only
    rw [h2]
  rw [run_once, hall]

/-- C3 witness: the abort evaluated at the concrete collaborator that fails
for GOOG. -/
theorem run_once_aborts_on_fetch_error_witness :
    extract fetch0 "2024-01-06" "AAPL" false st0 =
      (stA, .ok "AAPL_2024-01-06.json") ∧
    extract fetch0 "2024-01-06" "GOOG" false stA =
      (stA2, .error (.requestsError "GOOG")) ∧
    run_once fetch0 "2024-01-06" toDT0 dS0 "TS0" st0 dbEmpty =
      (stA2, dbEmpty, .error (.requestsError "GOOG")) :=
  ⟨rfl, rfl,
    run_once_aborts_on_fetch_error fetch0 "2024-01-06" toDT0 dS0 "TS0" st0
      dbEmpty stA stA2 "AAPL_2024-01-06.json" (.requestsError "GOOG") rfl rfl⟩

/-- payloadNoTS lacks the time-series container key. -/
def payloadNoTS : _Payload := ⟨none⟩

/-- filesBad is a directory whose one snapshot lacks the series key. -/
def filesBad : FileSys := [("IBM_2024-01-05.json", payloadNoTS)]

/-- C7 (confirmed): a payload lacking the time-series container key fails
pydantic validation; the ValidationError is re-raised as a ValueError whose
message names the offending symbol (the SchemaError of the spec).  Hence
parse_json on such a payload returns no rows but that error, and a
transform whose first symbol resolves to such a snapshot fails with it. -/
theorem missing_series_fails_with_symbol :
    (∀ (payload : _Payload) (symbol : String), payload.ts = none →
      _validate_payload payload symbol =
        .error (.valueError (symbol ++ ": invalid API payload"))) ∧
    (∀ (toDT : String → Option ℕ) (payload : _Payload) (symbol : String),
      payload.ts = none →
      parse_json toDT payload symbol =
        .error (.valueError (symbol ++ ": invalid API payload"))) ∧
    (∀ (toDT : String → Option ℕ) (fs : FileSys) (s : String)
      (rest : List String) (f : String) (p : _Payload),
      _latest_file_for s (fs.map (fun e => e.1)) = .ok f →
      lookupFile fs f = some p → p.ts = none →
      transform toDT fs (s :: rest) =
        .error (.valueError (s ++ ": invalid API payload"))) := by
  have hval : ∀ (payload : _Payload) (symbol : String), payload.ts = none →
      _validate_payload payload symbol =
        .error (.valueError (symbol ++ ": invalid API payload")) := by
    intro payload symbol h
    rw [_validate_payload, h]
  have hpj : ∀ (toDT : String → Option ℕ) (payload : _Payload)
      (symbol : String), payload.ts = none →
      parse_json toDT payload symbol =
        .error (.valueError (symbol ++ ": invalid API payload")) := by
    intro toDT payload symbol h
    rw [parse_json, hval payload symbol h, except_bind_error]
  refine ⟨hval, hpj, ?_⟩
  intro toDT fs s rest f p hlat hlook hts
  have hframes : transformFrames toDT fs (s :: rest) =
      .error (.valueError (s ++ ": invalid API payload")) := by
    rw [transformFrames, List.mapM_cons]
    rw [hlat, except_bind_ok, hlook]
    dsimp only
    rw [hpj toDT p s hts, except_bind_error]
  rw [transform, hframes, except_bind_error]

/-- C7 witness: the failure chain evaluated at a concrete payload lacking
the series key for symbol IBM. -/
theorem missing_series_fails_with_symbol_witness :
    payloadNoTS.ts = none ∧
    _validate_payload payloadNoTS "IBM" =
      .error (.valueError ("IBM" ++ ": invalid API payload")) ∧
    parse_json toDT0 payloadNoTS "IBM" =
      .error (.valueError ("IBM" ++ ": invalid API payload")) ∧
    (_latest_file_for "IBM" (filesBad.map (fun e => e.1)) =
        .ok "IBM_2024-01-05.json" ∧
      lookupFile filesBad "IBM_2024-01-05.json" = some payloadNoTS ∧
      transform toDT0 filesBad ["IBM"] =
        .error (.valueError ("IBM" ++ ": invalid API payload"))) :=
  ⟨rfl, missing_series_fails_with_symbol.1 payloadNoTS "IBM" rfl,
    missing_series_fails_with_symbol.2.1 toDT0 payloadNoTS "IBM" rfl,
    rfl, rfl,
    missing_series_fails_with_symbol.2.2 toDT0 filesBad "IBM" []
      "IBM_2024-01-05.json" payloadNoTS rfl rfl rfl⟩

/-- C9 (confirmed): the latest-snapshot lookup (i) raises FileNotFoundError
naming the symbol when no file matches the glob of that symbol, and (ii)
otherwise returns a matching directory entry that every matching entry is
lexicographically below — Python sorted() on the filename strings, not
file modification time; moreover (iii) a snapshot filename matches the
glob of its symbol, and (iv) for filnames built from equal-length date keys
(ISO dates all have length 10) the filename order is exactly the
lexicographic/calendar order of the date keys. -/
theorem latest_snapshot_lexicographic :
    (∀ (symbol : String) (names : List String),
      names.filter (matchesGlob symbol) = [] →
      _latest_file_for symbol names =
        .error (.fileNotFoundError ("No json files for " ++ symbol))) ∧
    (∀ (symbol : String) (names : List String) (f : String),
      _latest_file_for symbol names = .ok f →
      f ∈ names ∧ matchesGlob symbol f = true ∧
        ∀ g ∈ names, matchesGlob symbol g = true → strLe g f = true) ∧
    (∀ (symbol d : String),
      matchesGlob symbol (snapshotName symbol d) = true) ∧
    (∀ (symbol d1 d2 : String), d1.length = d2.length →
      strLe (snapshotName symbol d1) (snapshotName symbol d2) =
        strLe d1 d2) := by
  refine ⟨?_, ?_, ?_, ?_⟩
  · intro symbol names hnil
    rw [_latest_file_for]
    rw [hnil]
    rfl
  · intro symbol names f h
    rw [_latest_file_for] at h
    cases hlast : (sortBy strLe (names.filter (matchesGlob symbol))).getLast? with
    | none => rw [hlast] at h; cases h
    | some g =>
      rw [hlast] at h
      have hgf : g = f := Except.ok.inj h
      subst hgf
      have hsorted := (sortBy_perm strLe
        (names.filter (matchesGlob symbol))).mem_iff.mp
        (List.mem_of_getLast?_eq_some hlast)
      have hmf := List.mem_filter.mp hsorted
      refine ⟨hmf.1, hmf.2, ?_⟩
      intro g2 hg2mem hg2glob
      have hg2filter : g2 ∈ names.filter (matchesGlob symbol) :=
        List.mem_filter.mpr ⟨hg2mem, hg2glob⟩
      have hg2sorted : g2 ∈ sortBy strLe (names.filter (matchesGlob symbol)) :=
        (sortBy_perm strLe (names.filter (matchesGlob symbol))).mem_iff.mpr
          hg2filter
      exact pairwise_le_of_getLast strLe strLe_refl _ g hlast
        (sortBy_pairwise strLe strLe_total strLe_trans _) g2 hg2sorted
  · intro symbol d
    have hdata : (snapshotName symbol d).data =
        (symbol ++ "_").data ++ (d.data ++ ".json".data) := by
      simp [snapshotName, String.data_append, List.append_assoc]
    have hdata2 : (snapshotName symbol d).data =
        ((symbol ++ "_") ++ d).data ++ ".json".data := by
      simp [snapshotName, String.data_append, List.append_assoc]
    rw [matchesGlob, Bool.and_eq_true, Bool.and_eq_true]
    refine ⟨⟨?_, ?_⟩, ?_⟩
    · rw [hdata]
      simp only [List.isPrefixOf_iff_prefix]
      exact List.prefix_append _ _
    · rw [hdata2]
      simp only [List.isSuffixOf_iff_suffix]
      exact List.suffix_append _ _
    · rw [decide_eq_true_eq]
      simp only [snapshotName, String.length_append]
      omega
  · intro symbol d1 d2 hlen
    rw [strLe, strLe, strLt, strLt]
    have h1 : (snapshotName symbol d1).data =
        (symbol ++ "_").data ++ (d1.data ++ ".json".data) := by
      simp [snapshotName, String.data_append, List.append_assoc]
    have h2 : (snapshotName symbol d2).data =
        (symbol ++ "_").data ++ (d2.data ++ ".json".data) := by
      simp [snapshotName, String.data_append, List.append_assoc]
    rw [h1, h2, lexLt_append_left]
    rw [lexLt_append_right ".json".data d2.data d1.data
      (by rw [String.length_data, String.length_data]; exact hlen.symm)]

/-- C9 witness: the lookup evaluated on a concrete directory listing, the
maximality applied to the older GOOG file, the filename-vs-date-order
bridge applied to the two date keys, and the not-found branch for a symbol
without snapshots. -/
theorem latest_snapshot_lexicographic_witness :
    _latest_file_for "GOOG" ["GOOG_2024-01-02.json", "GOOG_2024-01-05.json",
      "AAPL_2024-01-06.json"] = .ok "GOOG_2024-01-05.json" ∧
    ("GOOG_2024-01-05.json" ∈ ["GOOG_2024-01-02.json", "GOOG_2024-01-05.json",
        "AAPL_2024-01-06.json"] ∧
      matchesGlob "GOOG" "GOOG_2024-01-05.json" = true ∧
      strLe "GOOG_2024-01-02.json" "GOOG_2024-01-05.json" = true) ∧
    (("2024-01-02" : String).length = ("2024-01-05" : String).length ∧
      strLe (snapshotName "GOOG" "2024-01-02")
          (snapshotName "GOOG" "2024-01-05") =
        strLe "2024-01-02" "2024-01-05") ∧
    (["GOOG_2024-01-02.json"].filter (matchesGlob "MSFT") = [] ∧
      _latest_file_for "MSFT" ["GOOG_2024-01-02.json"] =
        .error (.fileNotFoundError ("No json files for MSFT"))) := by
  refine ⟨rfl, ?_, ⟨rfl, ?_⟩, ⟨rfl, ?_⟩⟩
  · obtain ⟨hmem, hglob, hmax⟩ := latest_snapshot_lexicographic.2.1 "GOOG"
      ["GOOG_2024-01-02.json", "GOOG_2024-01-05.json", "AAPL_2024-01-06.json"]
      "GOOG_2024-01-05.json" rfl
    exact ⟨hmem, hglob, hmax "GOOG_2024-01-02.json" (by decide) (by decide)⟩
  · exact latest_snapshot_lexicographic.2.2.2 "GOOG" "2024-01-02" "2024-01-05"
      rfl
  · exact latest_snapshot_lexicographic.1 "MSFT" ["GOOG_2024-01-02.json"]
      (by decide)
